import Mathlib

/-!
Verification of the LTV-and-Risk-Profiling pipeline
(`scripts/generate_customer_analytics.py` builds the merged per-customer
analytics table; `scripts/customer_analytics.py` derives lifetime value,
loss ratio, risk score and a business segment from it).

Modelling conventions:
* numeric table cells are rationals (`ℚ`);
* a missing value / float NaN is `none` in an `Option` type: numpy
  arithmetic propagates NaN (`Option.map` / `Option.bind`), every pandas
  comparison against NaN is `False`, `fillna` is `Option.getD`;
* a pandas table is a `List` of row structures; a `groupby` result, whose
  keys are unique, is represented as the partial function
  `key → Option aggregates`, and a left merge onto such a unique-keyed
  table is a row-wise lookup;
* dates are day numbers (`Int`); the "current date" that
  `preprocess_data` snapshots once per run is an explicit parameter.
-/

namespace LTV

/-- numpy `np.clip x lo hi` on real (non-NaN) values: at most `hi`, at least `lo`. -/
def clip (x lo hi : ℚ) : ℚ := min (max x lo) hi

/-- `np.clip` applied to a possibly-NaN value: NaN propagates through. -/
def clipOpt (x : Option ℚ) (lo hi : ℚ) : Option ℚ := x.map (fun v => clip v lo hi)

/-- pandas `x <= c` where the cell `x` may be NaN: a comparison with NaN is `False`. -/
def nanLe (x : Option ℚ) (c : ℚ) : Bool :=
  match x with
  | none => false
  | some v => decide (v ≤ c)

/-- pandas `x > c` where the cell `x` may be NaN: a comparison with NaN is `False`. -/
def nanGt (x : Option ℚ) (c : ℚ) : Bool :=
  match x with
  | none => false
  | some v => decide (c < v)

/-- Arithmetic mean of a list of rationals, as pandas `mean` computes it on a
non-empty group. -/
def mean (l : List ℚ) : ℚ := l.sum / (l.length : ℚ)

/-- A row of the merged analytics CSV that `customer_analytics.py` reads
(`load_and_prepare_data`).  Cells that can be empty/NaN in the file are
`Option`-typed; CSV columns the script never touches are omitted. -/
structure MergedRow where
  customer_id : Nat
  name : String
  registration_date : Int
  policy_tenure_days : Option ℚ
  fraud_detected : Option Bool
  detection_count : Option ℚ
  total_claims : Option ℚ
  total_claimed_amount : Option ℚ
  active_policies : ℚ
  avg_annual_premium : ℚ
deriving Repr, DecidableEq

/-- Row after `load_and_prepare_data`: `fraud_detected` is `fillna(False)`,
`detection_count` is `fillna(0)` (`policy_tenure_days` was already coerced to
numeric-or-NaN, which the `Option ℚ` field models). -/
structure PreparedRow where
  customer_id : Nat
  name : String
  registration_date : Int
  policy_tenure_days : Option ℚ
  fraud_detected : Bool
  detection_count : ℚ
  total_claims : Option ℚ
  total_claimed_amount : Option ℚ
  active_policies : ℚ
  avg_annual_premium : ℚ
deriving Repr, DecidableEq

/-- `load_and_prepare_data` (per row): fill `fraud_detected` with `False` and
`detection_count` with `0`. -/
def load_and_prepare_data (r : MergedRow) : PreparedRow :=
  { customer_id := r.customer_id
    name := r.name
    registration_date := r.registration_date
    policy_tenure_days := r.policy_tenure_days
    fraud_detected := r.fraud_detected.getD false
    detection_count := r.detection_count.getD 0
    total_claims := r.total_claims
    total_claimed_amount := r.total_claimed_amount
    active_policies := r.active_policies
    avg_annual_premium := r.avg_annual_premium }

/-- Row after `calculate_metrics`: `policy_tenure_days`, `total_claims` and
`total_claimed_amount` are `fillna(0)`; `total_claim_amount` is a copy of the
filled `total_claimed_amount`; `annual_premium_sum = active_policies *
avg_annual_premium`; `fraud_claims` is a copy of `detection_count`. -/
structure MetricsRow where
  customer_id : Nat
  name : String
  registration_date : Int
  policy_tenure_days : ℚ
  fraud_detected : Bool
  total_claims : ℚ
  total_claim_amount : ℚ
  annual_premium_sum : ℚ
  fraud_claims : ℚ
  active_policies : ℚ
  avg_annual_premium : ℚ
deriving Repr, DecidableEq

/-- `calculate_metrics` (per row of the prepared table). -/
def calculate_metrics (r : PreparedRow) : MetricsRow :=
  { customer_id := r.customer_id
    name := r.name
    registration_date := r.registration_date
    policy_tenure_days := r.policy_tenure_days.getD 0
    fraud_detected := r.fraud_detected
    total_claims := r.total_claims.getD 0
    total_claim_amount := r.total_claimed_amount.getD 0
    annual_premium_sum := r.active_policies * r.avg_annual_premium
    fraud_claims := r.detection_count
    active_policies := r.active_policies
    avg_annual_premium := r.avg_annual_premium }

/-- Row after `calculate_lifetime_metrics`: adds `lifetime_value` and
`loss_ratio` (the latter NaN when `annual_premium_sum` is not positive). -/
structure LifetimeRow where
  customer_id : Nat
  name : String
  policy_tenure_days : ℚ
  total_claims : ℚ
  total_claim_amount : ℚ
  annual_premium_sum : ℚ
  fraud_claims : ℚ
  lifetime_value : ℚ
  loss_ratio : Option ℚ
deriving Repr, DecidableEq

/-- `calculate_lifetime_metrics` (per row): `lifetime_value =
annual_premium_sum - total_claim_amount`; `loss_ratio` is
`np.where(annual_premium_sum > 0, total_claim_amount / annual_premium_sum, np.nan)`. -/
def calculate_lifetime_metrics (r : MetricsRow) : LifetimeRow :=
  { customer_id := r.customer_id
    name := r.name
    policy_tenure_days := r.policy_tenure_days
    total_claims := r.total_claims
    total_claim_amount := r.total_claim_amount
    annual_premium_sum := r.annual_premium_sum
    fraud_claims := r.fraud_claims
    lifetime_value := r.annual_premium_sum - r.total_claim_amount
    loss_ratio :=
      if 0 < r.annual_premium_sum then some (r.total_claim_amount / r.annual_premium_sum)
      else none }

/-- Loss-ratio component of the risk score, `np.clip(loss_ratio * 50, 0, 50)`:
NaN in, NaN out. -/
def loss_ratio_score (lr : Option ℚ) : Option ℚ :=
  clipOpt (lr.map (fun v => v * 50)) 0 50

/-- Fraud component of the risk score, `np.clip(fraud_claims * 3, 0, 30)`. -/
def fraud_score (fc : ℚ) : ℚ := clip (fc * 3) 0 30

/-- `total_claims / (policy_tenure_days.clip(lower=1) / 365.25)`. -/
def claims_per_year (tc tenure : ℚ) : ℚ := tc / (max tenure 1 / 365.25)

/-- Frequency component of the risk score, `np.clip(claims_per_year * 4, 0, 20)`. -/
def frequency_score (tc tenure : ℚ) : ℚ := clip (claims_per_year tc tenure * 4) 0 20

/-- Row after `calculate_risk_score`: adds `risk_score`, the sum of the three
components; a NaN loss-ratio component makes the whole sum NaN. -/
structure RiskRow where
  customer_id : Nat
  name : String
  policy_tenure_days : ℚ
  total_claims : ℚ
  total_claim_amount : ℚ
  annual_premium_sum : ℚ
  fraud_claims : ℚ
  lifetime_value : ℚ
  loss_ratio : Option ℚ
  risk_score : Option ℚ
deriving Repr, DecidableEq

/-- `calculate_risk_score` (per row). -/
def calculate_risk_score (r : LifetimeRow) : RiskRow :=
  { customer_id := r.customer_id
    name := r.name
    policy_tenure_days := r.policy_tenure_days
    total_claims := r.total_claims
    total_claim_amount := r.total_claim_amount
    annual_premium_sum := r.annual_premium_sum
    fraud_claims := r.fraud_claims
    lifetime_value := r.lifetime_value
    loss_ratio := r.loss_ratio
    risk_score :=
      (loss_ratio_score r.loss_ratio).map
        (fun l => l + fraud_score r.fraud_claims
          + frequency_score r.total_claims r.policy_tenure_days) }

/-- The segment label as a function of `(lifetime_value, risk_score)` — the
`np.select` condition list of `assign_segments`, first match wins, `True`
(Watch List) as the default.  A NaN `risk_score` fails every comparison. -/
def segment_of (lv : ℚ) (rs : Option ℚ) : String :=
  if decide (0 ≤ lv) && nanLe rs 40 then "Premium Partner"
  else if decide (0 ≤ lv) && nanGt rs 40 && nanLe rs 60 then "Growth Prospect"
  else if decide (lv < 0) && nanGt rs 60 then "Risk Management"
  else "Watch List"

/-- Row after `assign_segments`: adds the segment label. -/
structure SegmentRow where
  customer_id : Nat
  name : String
  policy_tenure_days : ℚ
  total_claims : ℚ
  total_claim_amount : ℚ
  annual_premium_sum : ℚ
  fraud_claims : ℚ
  lifetime_value : ℚ
  loss_ratio : Option ℚ
  risk_score : Option ℚ
  segment : String
deriving Repr, DecidableEq

/-- `assign_segments` (per row). -/
def assign_segments (r : RiskRow) : SegmentRow :=
  { customer_id := r.customer_id
    name := r.name
    policy_tenure_days := r.policy_tenure_days
    total_claims := r.total_claims
    total_claim_amount := r.total_claim_amount
    annual_premium_sum := r.annual_premium_sum
    fraud_claims := r.fraud_claims
    lifetime_value := r.lifetime_value
    loss_ratio := r.loss_ratio
    risk_score := r.risk_score
    segment := segment_of r.lifetime_value r.risk_score }

/-- One merged-CSV row through all four per-row stages of
`customer_analytics.main`. -/
def processRow (r : MergedRow) : SegmentRow :=
  assign_segments (calculate_risk_score (calculate_lifetime_metrics
    (calculate_metrics (load_and_prepare_data r))))

/-- The output schema of `customer_analytics.main` — exactly the columns of
`output_cols`, in order: customer_id, name, lifetime_value, loss_ratio,
risk_score, segment, total_claims, total_claim_amount, annual_premium_sum,
fraud_claims, policy_tenure_days. -/
structure OutputRow where
  customer_id : Nat
  name : String
  lifetime_value : ℚ
  loss_ratio : Option ℚ
  risk_score : Option ℚ
  segment : String
  total_claims : ℚ
  total_claim_amount : ℚ
  annual_premium_sum : ℚ
  fraud_claims : ℚ
  policy_tenure_days : ℚ
deriving Repr, DecidableEq

/-- The column selection `df[output_cols]`. -/
def selectOutput (r : SegmentRow) : OutputRow :=
  { customer_id := r.customer_id
    name := r.name
    lifetime_value := r.lifetime_value
    loss_ratio := r.loss_ratio
    risk_score := r.risk_score
    segment := r.segment
    total_claims := r.total_claims
    total_claim_amount := r.total_claim_amount
    annual_premium_sum := r.annual_premium_sum
    fraud_claims := r.fraud_claims
    policy_tenure_days := r.policy_tenure_days }

/-- `sort_values('lifetime_value', ascending=False)`: the comparison that puts
larger lifetime values first. -/
def ltvDesc (a b : OutputRow) : Bool := decide (b.lifetime_value ≤ a.lifetime_value)

/-- `customer_analytics.main` on an already-loaded merged table: run the four
per-row stages, select the output columns, sort by lifetime value descending. -/
def pipelineMain (df : List MergedRow) : List OutputRow :=
  ((df.map processRow).map selectOutput).mergeSort ltvDesc

/-! ### Stage 1: `generate_customer_analytics.py`

The four input tables, the per-grain aggregations of
`create_customer_analytics`, and the chain of left merges onto the customer
table.  Each `groupby` output has one row per distinct key, so it is
represented as a `key → Option aggregates` lookup; every merge in the script
is a left merge whose right side is such a unique-keyed table, so the whole
join factors into one lookup per customer row.  The dict/list-valued
denormalization columns (`policy_types`, `policy_ids`, `claim_statuses`) are
omitted: no derived metric reads them. -/

/-- A row of the customers input table. -/
structure Customer where
  customer_id : Nat
  name : String
  age : ℚ
  email : String
  city : String
  registration_date : Int
deriving Repr, DecidableEq

/-- A row of the policies input table. -/
structure Policy where
  policy_id : Nat
  customer_id : Nat
  status : String
  annual_premium : ℚ
  coverage_amount : ℚ
  policy_type : String
  start_date : Int
deriving Repr, DecidableEq

/-- A row of the claims input table. -/
structure ClaimRow where
  claim_id : Nat
  policy_id : Nat
  claim_amount : ℚ
  status : String
  claim_date : Int
deriving Repr, DecidableEq

/-- A row of the fraud-detections input table. -/
structure FraudRow where
  claim_id : Nat
  is_fraudulent : Bool
  confidence_score : ℚ
  detection_date : Int
deriving Repr, DecidableEq

/-- `preprocess_data`'s `first_policy` table: days from the customer's earliest
policy `start_date` to the run's single `current_date` snapshot; no row when
the customer has no policy. -/
def first_policy (policies : List Policy) (current_date : Int) (cid : Nat) : Option ℚ :=
  match ((policies.filter (fun p => p.customer_id == cid)).map (fun p => p.start_date)).min? with
  | none => none
  | some d => some ((current_date - d : Int) : ℚ)

/-- Aggregates of `policies.groupby('customer_id')` (step 1 of
`create_customer_analytics`). -/
structure PolicyMetrics where
  total_policies : ℚ
  active_policies : ℚ
  avg_annual_premium : ℚ
  total_coverage : ℚ
deriving Repr, DecidableEq

/-- Step 1, as a lookup: `none` when the customer has no policy row.
`active_policies` counts rows with `status == 'ACTIVE'` (exact match). -/
def policy_metrics (policies : List Policy) (cid : Nat) : Option PolicyMetrics :=
  let mine := policies.filter (fun p => p.customer_id == cid)
  if mine.isEmpty then none
  else some
    { total_policies := (mine.length : ℚ)
      active_policies := ((mine.filter (fun p => p.status == "ACTIVE")).length : ℚ)
      avg_annual_premium := mean (mine.map (fun p => p.annual_premium))
      total_coverage := (mine.map (fun p => p.coverage_amount)).sum }

/-- Aggregates of `claims.groupby('policy_id')` (step 2). -/
structure ClaimsMetrics where
  total_claims : ℚ
  total_claimed_amount : ℚ
  avg_claim_amount : ℚ
deriving Repr, DecidableEq

/-- Step 2, as a lookup: `none` when the policy has no claim row. -/
def claims_metrics (claims : List ClaimRow) (pid : Nat) : Option ClaimsMetrics :=
  let mine := claims.filter (fun c => c.policy_id == pid)
  if mine.isEmpty then none
  else some
    { total_claims := (mine.length : ℚ)
      total_claimed_amount := (mine.map (fun c => c.claim_amount)).sum
      avg_claim_amount := mean (mine.map (fun c => c.claim_amount)) }

/-- Aggregates of `fraud.groupby('claim_id')` (step 3): `fraud_detected` is
`max` of the booleans, `detection_count` their sum, `avg_confidence` the mean
confidence. -/
structure FraudMetrics where
  fraud_detected : Bool
  detection_count : ℚ
  avg_confidence : ℚ
deriving Repr, DecidableEq

/-- Step 3, as a lookup: `none` when the claim has no fraud-detection row. -/
def fraud_metrics (fraud : List FraudRow) (claimId : Nat) : Option FraudMetrics :=
  let mine := fraud.filter (fun f => f.claim_id == claimId)
  if mine.isEmpty then none
  else some
    { fraud_detected := mine.any (fun f => f.is_fraudulent)
      detection_count := ((mine.filter (fun f => f.is_fraudulent)).length : ℚ)
      avg_confidence := mean (mine.map (fun f => f.confidence_score)) }

/-- Step 4.1, `policies[['policy_id', 'customer_id']].drop_duplicates()`
(first occurrence kept). -/
def policy_customer_map (policies : List Policy) : List (Nat × Nat) :=
  (policies.map (fun p => (p.policy_id, p.customer_id))).dedup

/-- Step 4.2, `policy_customer_map` left-merged with the per-policy claim
aggregates (`claims_metrics` has unique `policy_id` keys, so each map row
gains one optional aggregate). -/
def policy_claims (policies : List Policy) (claims : List ClaimRow) :
    List ((Nat × Nat) × Option ClaimsMetrics) :=
  (policy_customer_map policies).map (fun pc => (pc, claims_metrics claims pc.1))

/-- Step 4.3 aggregates, `policy_claims.groupby('customer_id')`: pandas `sum`
skips NaN (an all-NaN group sums to 0) while `mean` of an all-NaN group stays
NaN. -/
structure CustomerClaims where
  total_claims : ℚ
  total_claimed_amount : ℚ
  avg_claim_amount : Option ℚ
deriving Repr, DecidableEq

/-- Step 4.3, as a lookup: a row exists exactly when the customer owns a
policy in the map. -/
def customer_claims (policies : List Policy) (claims : List ClaimRow) (cid : Nat) :
    Option CustomerClaims :=
  let rows := (policy_claims policies claims).filter (fun x => x.1.2 == cid)
  if rows.isEmpty then none
  else
    let present := rows.filterMap (fun x => x.2)
    some
      { total_claims := (present.map (fun m => m.total_claims)).sum
        total_claimed_amount := (present.map (fun m => m.total_claimed_amount)).sum
        avg_claim_amount :=
          if present.isEmpty then none
          else some (mean (present.map (fun m => m.avg_claim_amount))) }

/-- Step 4.4, `claims[['claim_id', 'policy_id']]` left-merged with the
per-claim fraud aggregates: `(claim_id, policy_id, optional fraud metrics)`. -/
def claims_fraud (claims : List ClaimRow) (fraud : List FraudRow) :
    List (Nat × Nat × Option FraudMetrics) :=
  claims.map (fun c => (c.claim_id, c.policy_id, fraud_metrics fraud c.claim_id))

/-- The customer a policy id maps to in `policy_customer_map` (`policy_id` is
the policy table's unique key, so the map holds at most one row per id). -/
def customer_of_policy (policies : List Policy) (pid : Nat) : Option Nat :=
  ((policy_customer_map policies).find? (fun pc => pc.1 == pid)).map (fun pc => pc.2)

/-- Step 4.5 aggregates, `policy_fraud.groupby('customer_id')`: `max` and
`mean` of an all-NaN group stay NaN, `sum` gives 0. -/
structure CustomerFraud where
  fraud_detected : Option Bool
  detection_count : ℚ
  avg_confidence : Option ℚ
deriving Repr, DecidableEq

/-- Step 4.5, as a lookup: a row exists exactly when some claim's policy
belongs to the customer (a claim whose policy matches no customer gets a NaN
key and is dropped by the groupby). -/
def customer_fraud_metrics (policies : List Policy) (claims : List ClaimRow)
    (fraud : List FraudRow) (cid : Nat) : Option CustomerFraud :=
  let rows := (claims_fraud claims fraud).filter
    (fun x => customer_of_policy policies x.2.1 == some cid)
  if rows.isEmpty then none
  else
    let present := rows.filterMap (fun x => x.2.2)
    some
      { fraud_detected :=
          if present.isEmpty then none
          else some (present.any (fun m => m.fraud_detected))
        detection_count := (present.map (fun m => m.detection_count)).sum
        avg_confidence :=
          if present.isEmpty then none
          else some (mean (present.map (fun m => m.avg_confidence))) }

/-- A row of `create_customer_analytics`'s output after step 6's
`fillna(0)` on numeric columns.  `fraud_detected` is an object column
(booleans with NaN), so the fill does not touch it; `claims_per_policy` and
`fraud_rate` are derived after the fill and are NaN when their denominator is
zero. -/
structure AnalyticsRow where
  customer_id : Nat
  name : String
  age : ℚ
  email : String
  city : String
  registration_date : Int
  customer_tenure_days : ℚ
  policy_tenure_days : ℚ
  total_policies : ℚ
  active_policies : ℚ
  total_claims : ℚ
  total_claimed_amount : ℚ
  avg_claim_amount : ℚ
  fraud_detected : Option Bool
  detection_count : ℚ
  avg_confidence : ℚ
  claims_per_policy : Option ℚ
  fraud_rate : Option ℚ
  avg_annual_premium : ℚ
  total_coverage : ℚ
deriving Repr, DecidableEq

/-- The output row one customer contributes: merges 5.1-5.3 attach the
unique-keyed aggregates to the policy-metrics table, merge 5.4 left-joins the
result onto the customer row, step 6 zero-fills the numeric holes and step 7
derives the two ratio columns on the filled values. -/
def analytics_row (policies : List Policy) (claims : List ClaimRow)
    (fraud : List FraudRow) (current_date : Int) (c : Customer) : AnalyticsRow :=
  let pm := policy_metrics policies c.customer_id
  let cc := customer_claims policies claims c.customer_id
  let cf := customer_fraud_metrics policies claims fraud c.customer_id
  let total_policies := (pm.map (fun m => m.total_policies)).getD 0
  let total_claims := (cc.map (fun m => m.total_claims)).getD 0
  let detection_count := (cf.map (fun m => m.detection_count)).getD 0
  { customer_id := c.customer_id
    name := c.name
    age := c.age
    email := c.email
    city := c.city
    registration_date := c.registration_date
    customer_tenure_days := ((current_date - c.registration_date : Int) : ℚ)
    policy_tenure_days := (first_policy policies current_date c.customer_id).getD 0
    total_policies := total_policies
    active_policies := (pm.map (fun m => m.active_policies)).getD 0
    total_claims := total_claims
    total_claimed_amount := (cc.map (fun m => m.total_claimed_amount)).getD 0
    avg_claim_amount := (cc.bind (fun m => m.avg_claim_amount)).getD 0
    fraud_detected := cf.bind (fun m => m.fraud_detected)
    detection_count := detection_count
    avg_confidence := (cf.bind (fun m => m.avg_confidence)).getD 0
    claims_per_policy :=
      if total_policies == 0 then none else some (total_claims / total_policies)
    fraud_rate :=
      if total_claims == 0 then none else some (detection_count / total_claims)
    avg_annual_premium := (pm.map (fun m => m.avg_annual_premium)).getD 0
    total_coverage := (pm.map (fun m => m.total_coverage)).getD 0 }

/-- `create_customer_analytics` (steps 4.1-8) against a fixed `current_date`
snapshot: the final merge (5.4) is a left merge of the customer table with
the unique-keyed per-customer aggregates, so the output carries one
`analytics_row` per customer row. -/
def create_customer_analytics (customers : List Customer) (policies : List Policy)
    (claims : List ClaimRow) (fraud : List FraudRow) (current_date : Int) :
    List AnalyticsRow :=
  customers.map (analytics_row policies claims fraud current_date)


/-- Reading stage 1's saved CSV as stage 2's merged table: the zero-filled
numeric cells arrive as present values, `fraud_detected` keeps its possible
blanks. -/
def toMergedRow (a : AnalyticsRow) : MergedRow :=
  { customer_id := a.customer_id
    name := a.name
    registration_date := a.registration_date
    policy_tenure_days := some a.policy_tenure_days
    fraud_detected := a.fraud_detected
    detection_count := some a.detection_count
    total_claims := some a.total_claims
    total_claimed_amount := some a.total_claimed_amount
    active_policies := a.active_policies
    avg_annual_premium := a.avg_annual_premium }

/-- The whole pipeline, stage 1 then stage 2, with the run's "current date"
snapshot (the only ambient input of the scripts) passed explicitly. -/
def full_pipeline (customers : List Customer) (policies : List Policy)
    (claims : List ClaimRow) (fraud : List FraudRow) (current_date : Int) :
    List OutputRow :=
  pipelineMain ((create_customer_analytics customers policies claims fraud current_date).map
    toMergedRow)

/-! ### Concrete rows used by the witnesses and counterexamples -/

/-- A customer with no active policy: `annual_premium_sum = 0 * 1000 = 0`,
with a recorded claim amount of 100. -/
def zeroPremiumRow : MergedRow :=
  { customer_id := 1, name := "Z", registration_date := 0,
    policy_tenure_days := some 0, fraud_detected := some false,
    detection_count := some 0, total_claims := some 0,
    total_claimed_amount := some 100, active_policies := 0,
    avg_annual_premium := 1000 }

/-- The spec's worked example: 2 active policies at a 1000 mean premium, one
claim of 500 over a 365-day tenure, no fraud. -/
def exampleRow : MergedRow :=
  { customer_id := 42, name := "E", registration_date := 0,
    policy_tenure_days := some 365, fraud_detected := some false,
    detection_count := some 0, total_claims := some 1,
    total_claimed_amount := some 500, active_policies := 2,
    avg_annual_premium := 1000 }

/-- A priced customer: one active policy, premium 800, claims totalling 200
over 730 days of tenure. -/
def positivePremiumRow : MergedRow :=
  { customer_id := 7, name := "P", registration_date := 0,
    policy_tenure_days := some 730, fraud_detected := some false,
    detection_count := some 1, total_claims := some 2,
    total_claimed_amount := some 200, active_policies := 1,
    avg_annual_premium := 800 }

/-! ### Helper lemmas about the clipped components -/

theorem clip_le_hi (x lo hi : ℚ) : clip x lo hi ≤ hi := min_le_right _ _

theorem lo_le_clip (x lo hi : ℚ) (h : lo ≤ hi) : lo ≤ clip x lo hi :=
  le_min (le_max_right x lo) h

theorem fraud_score_nonneg (fc : ℚ) : 0 ≤ fraud_score fc :=
  lo_le_clip _ _ _ (by norm_num)

theorem fraud_score_le (fc : ℚ) : fraud_score fc ≤ 30 := clip_le_hi _ _ _

theorem frequency_score_nonneg (tc tenure : ℚ) : 0 ≤ frequency_score tc tenure :=
  lo_le_clip _ _ _ (by norm_num)

theorem frequency_score_le (tc tenure : ℚ) : frequency_score tc tenure ≤ 20 :=
  clip_le_hi _ _ _

/-- On a defined loss ratio the risk score is the sum of the three clipped
components. -/
theorem risk_score_eq_of_loss_ratio (r : LifetimeRow) (lr : ℚ)
    (h : r.loss_ratio = some lr) :
    (calculate_risk_score r).risk_score
      = some (clip (lr * 50) 0 50 + fraud_score r.fraud_claims
          + frequency_score r.total_claims r.policy_tenure_days) := by
  simp [calculate_risk_score, loss_ratio_score, clipOpt, h]

/-! ### C3: the segmenter -/

/-- The ordered rule list of spec section 4.3, word for word, as a function of
real `(lifetime_value, risk_score)` — the refinement target `assign_segments`
is compared against. -/
def segmentSpec (lv rs : ℚ) : String :=
  if 0 ≤ lv ∧ rs ≤ 40 then "Premium Partner"
  else if 0 ≤ lv ∧ 40 < rs ∧ rs ≤ 60 then "Growth Prospect"
  else if lv < 0 ∧ 60 < rs then "Risk Management"
  else "Watch List"

/-- C3: the code's segment assignment is the pure first-match evaluation of
the four ordered rules on `(lifetime_value, risk_score)` — it agrees with the
spec's rule list on every real risk score — and every customer, NaN risk
scores included, gets exactly one of the four labels. -/
theorem segment_rules_first_match :
    (∀ lv rs : ℚ, segment_of lv (some rs) = segmentSpec lv rs) ∧
    (∀ (lv : ℚ) (rs : Option ℚ),
      segment_of lv rs = "Premium Partner" ∨ segment_of lv rs = "Growth Prospect" ∨
      segment_of lv rs = "Risk Management" ∨ segment_of lv rs = "Watch List") := by
  constructor
  · intro lv rs
    simp only [segment_of, segmentSpec, nanLe, nanGt, Bool.and_eq_true, decide_eq_true_eq]
    split_ifs <;> tauto
  · intro lv rs
    simp only [segment_of]
    split_ifs <;> tauto

/-! ### C4: the division-by-zero guard on loss_ratio -/

/-- C4: for every merged row, `loss_ratio` is the quotient
`total_claim_amount / annual_premium_sum` exactly when the premium sum is
positive, and the explicit undefined value `none` — never a coerced 0 —
otherwise. -/
theorem loss_ratio_division_guard (r : MergedRow) :
    (0 < (calculate_metrics (load_and_prepare_data r)).annual_premium_sum →
      (calculate_lifetime_metrics (calculate_metrics (load_and_prepare_data r))).loss_ratio
        = some ((calculate_metrics (load_and_prepare_data r)).total_claim_amount
            / (calculate_metrics (load_and_prepare_data r)).annual_premium_sum)) ∧
    (¬ 0 < (calculate_metrics (load_and_prepare_data r)).annual_premium_sum →
      (calculate_lifetime_metrics (calculate_metrics (load_and_prepare_data r))).loss_ratio
        = none) := by
  constructor <;> intro h <;> simp [calculate_lifetime_metrics, h]

/-! ### C1: bounds of the risk score -/

/-- C1 fails as stated: for the customer row with no active policy the
pipeline's risk score is NaN (`none`), not a number in [0, 100] — the
loss-ratio component is NaN and `np.clip` propagates it through the sum. -/
theorem risk_score_nan_at_zero_premium :
    (processRow zeroPremiumRow).risk_score = none ∧
    ¬ ∃ v : ℚ, (processRow zeroPremiumRow).risk_score = some v ∧ 0 ≤ v ∧ v ≤ 100 := by
  have h : (processRow zeroPremiumRow).risk_score = none := by
    simp [processRow, assign_segments, calculate_risk_score, calculate_lifetime_metrics,
      calculate_metrics, load_and_prepare_data, zeroPremiumRow, loss_ratio_score, clipOpt]
  refine ⟨h, ?_⟩
  rintro ⟨v, hv, -, -⟩
  rw [h] at hv
  cases hv

/-- C1 (amended): whenever the derived `annual_premium_sum` is positive — so
the loss ratio is defined — the risk score is a number in [0, 100], however
extreme the claim counts, amounts, fraud counts or tenure: each of the three
components is independently clipped before summing. -/
theorem risk_score_bounded (r : MergedRow)
    (h : 0 < (calculate_metrics (load_and_prepare_data r)).annual_premium_sum) :
    ∃ v : ℚ, (processRow r).risk_score = some v ∧ 0 ≤ v ∧ v ≤ 100 := by
  have hlr : (calculate_lifetime_metrics (calculate_metrics (load_and_prepare_data r))).loss_ratio
      = some ((calculate_metrics (load_and_prepare_data r)).total_claim_amount
          / (calculate_metrics (load_and_prepare_data r)).annual_premium_sum) :=
    (loss_ratio_division_guard r).1 h
  have hrs := risk_score_eq_of_loss_ratio _ _ hlr
  refine ⟨clip (((calculate_metrics (load_and_prepare_data r)).total_claim_amount
      / (calculate_metrics (load_and_prepare_data r)).annual_premium_sum) * 50) 0 50
      + fraud_score
          (calculate_lifetime_metrics (calculate_metrics (load_and_prepare_data r))).fraud_claims
      + frequency_score
          (calculate_lifetime_metrics (calculate_metrics (load_and_prepare_data r))).total_claims
          (calculate_lifetime_metrics (calculate_metrics
            (load_and_prepare_data r))).policy_tenure_days,
    hrs, ?_, ?_⟩
  · have h1 := lo_le_clip (((calculate_metrics (load_and_prepare_data r)).total_claim_amount
      / (calculate_metrics (load_and_prepare_data r)).annual_premium_sum) * 50) 0 50 (by norm_num)
    have h2 := fraud_score_nonneg
      (calculate_lifetime_metrics (calculate_metrics (load_and_prepare_data r))).fraud_claims
    have h3 := frequency_score_nonneg
      (calculate_lifetime_metrics (calculate_metrics (load_and_prepare_data r))).total_claims
      (calculate_lifetime_metrics (calculate_metrics (load_and_prepare_data r))).policy_tenure_days
    linarith
  · have h1 := clip_le_hi (((calculate_metrics (load_and_prepare_data r)).total_claim_amount
      / (calculate_metrics (load_and_prepare_data r)).annual_premium_sum) * 50) 0 50
    have h2 := fraud_score_le
      (calculate_lifetime_metrics (calculate_metrics (load_and_prepare_data r))).fraud_claims
    have h3 := frequency_score_le
      (calculate_lifetime_metrics (calculate_metrics (load_and_prepare_data r))).total_claims
      (calculate_lifetime_metrics (calculate_metrics (load_and_prepare_data r))).policy_tenure_days
    linarith

/-- Witness for the amended C1 at a concrete priced customer. -/
theorem risk_score_bounded_witness :
    ∃ v : ℚ, (processRow positivePremiumRow).risk_score = some v ∧ 0 ≤ v ∧ v ≤ 100 :=
  risk_score_bounded positivePremiumRow
    (by norm_num [calculate_metrics, load_and_prepare_data, positivePremiumRow])

/-! ### C2: the loss-ratio component on an undefined loss ratio -/

/-- C2 fails as stated: at the zero-premium customer the claim predicts a
risk score equal to the fraud and frequency components alone (here 0), but
the code lets the undefined loss ratio propagate: the risk score is NaN. -/
theorem loss_component_cex :
    (processRow zeroPremiumRow).risk_score = none ∧
    (processRow zeroPremiumRow).risk_score
      ≠ some (fraud_score 0 + frequency_score 0 0) := by
  have h : (processRow zeroPremiumRow).risk_score = none := by
    simp [processRow, assign_segments, calculate_risk_score, calculate_lifetime_metrics,
      calculate_metrics, load_and_prepare_data, zeroPremiumRow, loss_ratio_score, clipOpt]
  exact ⟨h, by rw [h]; exact fun hc => Option.noConfusion hc⟩

/-- C2 (amended): for a customer with `annual_premium_sum = 0` the loss ratio
is the explicit undefined value and it does propagate: the loss-ratio
component and the whole risk score are NaN, not 0. -/
theorem loss_ratio_nan_propagates (r : MergedRow)
    (h : (calculate_metrics (load_and_prepare_data r)).annual_premium_sum = 0) :
    (calculate_lifetime_metrics (calculate_metrics (load_and_prepare_data r))).loss_ratio = none
      ∧ (processRow r).risk_score = none := by
  have hneg : ¬ 0 < (calculate_metrics (load_and_prepare_data r)).annual_premium_sum := by
    rw [h]; exact lt_irrefl 0
  have hlr := (loss_ratio_division_guard r).2 hneg
  refine ⟨hlr, ?_⟩
  show (calculate_risk_score (calculate_lifetime_metrics
    (calculate_metrics (load_and_prepare_data r)))).risk_score = none
  simp [calculate_risk_score, loss_ratio_score, clipOpt, hlr]

/-- Witness for the amended C2 at the concrete zero-premium customer. -/
theorem loss_ratio_nan_propagates_witness :
    (calculate_lifetime_metrics (calculate_metrics
      (load_and_prepare_data zeroPremiumRow))).loss_ratio = none
      ∧ (processRow zeroPremiumRow).risk_score = none :=
  loss_ratio_nan_propagates zeroPremiumRow
    (by norm_num [calculate_metrics, load_and_prepare_data, zeroPremiumRow])

/-! ### C6: the premium-sum and lifetime-value formulas -/

/-- C6: for every row, `annual_premium_sum = active_policies *
avg_annual_premium` and `lifetime_value = annual_premium_sum -
total_claim_amount`; and the lifetime value can come out negative. -/
theorem value_formulas :
    (∀ r : MergedRow,
      (calculate_metrics (load_and_prepare_data r)).annual_premium_sum
          = r.active_policies * r.avg_annual_premium ∧
      (calculate_lifetime_metrics (calculate_metrics (load_and_prepare_data r))).lifetime_value
          = (calculate_metrics (load_and_prepare_data r)).annual_premium_sum
            - (calculate_metrics (load_and_prepare_data r)).total_claim_amount) ∧
    (∃ r : MergedRow,
      (calculate_lifetime_metrics (calculate_metrics
        (load_and_prepare_data r))).lifetime_value < 0) := by
  refine ⟨fun r => ⟨rfl, rfl⟩, zeroPremiumRow, ?_⟩
  norm_num [calculate_lifetime_metrics, calculate_metrics, load_and_prepare_data, zeroPremiumRow]

/-! ### C7: the worked example -/

/-- C7 fails as stated: with one claim over 365 tenure days the frequency
component is `4 * 365.25 / 365 = 1461/365`, not 4, so the example's risk
score is not 16.5 (= 33/2). -/
theorem example_scenario_cex :
    frequency_score 1 365 ≠ 4 ∧
    (processRow exampleRow).risk_score ≠ some (33 / 2) := by
  constructor
  · norm_num [frequency_score, claims_per_year, clip, min_def, max_def]
  · have h : (processRow exampleRow).risk_score = some (12047 / 730) := by
      simp [processRow, assign_segments, calculate_risk_score, calculate_lifetime_metrics,
        calculate_metrics, load_and_prepare_data, exampleRow, loss_ratio_score, fraud_score,
        frequency_score, claims_per_year, clipOpt, clip, min_def, max_def]
      norm_num
    rw [h]
    intro hc
    have := Option.some.inj hc
    norm_num at this

/-- C7 (amended): on the example customer (2 active policies at mean premium
1000, one claim of 500, 365 tenure days, no fraud) the pipeline derives
`annual_premium_sum = 2000`, `lifetime_value = 1500`, `loss_ratio = 1/4`, a
frequency component of `1461/365` (about 4.0027, not exactly 4), a risk
score of `25/2 + 1461/365 = 12047/730` (about 16.5027, not exactly 16.5),
and the segment "Premium Partner". -/
theorem example_scenario_exact :
    (calculate_metrics (load_and_prepare_data exampleRow)).annual_premium_sum = 2000 ∧
    (calculate_lifetime_metrics (calculate_metrics
      (load_and_prepare_data exampleRow))).lifetime_value = 1500 ∧
    (calculate_lifetime_metrics (calculate_metrics
      (load_and_prepare_data exampleRow))).loss_ratio = some (1 / 4) ∧
    frequency_score 1 365 = 1461 / 365 ∧
    (processRow exampleRow).risk_score = some (12047 / 730) ∧
    (processRow exampleRow).segment = "Premium Partner" := by
  refine ⟨?_, ?_, ?_, ?_, ?_, ?_⟩
  · norm_num [calculate_metrics, load_and_prepare_data, exampleRow]
  · norm_num [calculate_lifetime_metrics, calculate_metrics, load_and_prepare_data, exampleRow]
  · norm_num [calculate_lifetime_metrics, calculate_metrics, load_and_prepare_data, exampleRow]
  · norm_num [frequency_score, claims_per_year, clip, min_def, max_def]
  · simp [processRow, assign_segments, calculate_risk_score, calculate_lifetime_metrics,
      calculate_metrics, load_and_prepare_data, exampleRow, loss_ratio_score, fraud_score,
      frequency_score, claims_per_year, clipOpt, clip, min_def, max_def]
    norm_num
  · simp [processRow, assign_segments, segment_of, calculate_risk_score,
      calculate_lifetime_metrics, calculate_metrics, load_and_prepare_data, exampleRow,
      loss_ratio_score, fraud_score, frequency_score, claims_per_year, clipOpt, clip,
      nanLe, nanGt, min_def, max_def]
    norm_num

/-! ### C8: zero premium ends on the Watch List -/

/-- C8: a customer whose derived `annual_premium_sum` is 0 has an undefined
loss ratio, hence a NaN risk score; all three specific segment conditions
compare against NaN and fail, so the default rule assigns "Watch List". -/
theorem zero_premium_watch_list (r : MergedRow)
    (h : (calculate_metrics (load_and_prepare_data r)).annual_premium_sum = 0) :
    (processRow r).segment = "Watch List" := by
  have hrs := (loss_ratio_nan_propagates r h).2
  have hseg : (processRow r).segment
      = segment_of (calculate_risk_score (calculate_lifetime_metrics
          (calculate_metrics (load_and_prepare_data r)))).lifetime_value
        (processRow r).risk_score := rfl
  rw [hseg, hrs]
  simp [segment_of, nanLe, nanGt]

/-- Witness for C8 at the concrete zero-premium customer. -/
theorem zero_premium_watch_list_witness :
    (processRow zeroPremiumRow).segment = "Watch List" :=
  zero_premium_watch_list zeroPremiumRow
    (by norm_num [calculate_metrics, load_and_prepare_data, zeroPremiumRow])

/-! ### C9: determinism of the whole pipeline -/

/-- C9: with the run's "current date" snapshot fixed (the scripts' only
ambient input, passed here explicitly), two runs of the full pipeline on
identical input tables produce identical output tables. -/
theorem pipeline_deterministic (c1 c2 : List Customer) (p1 p2 : List Policy)
    (l1 l2 : List ClaimRow) (f1 f2 : List FraudRow) (d1 d2 : Int)
    (hc : c1 = c2) (hp : p1 = p2) (hl : l1 = l2) (hf : f1 = f2) (hd : d1 = d2) :
    full_pipeline c1 p1 l1 f1 d1 = full_pipeline c2 p2 l2 f2 d2 := by
  rw [hc, hp, hl, hf, hd]

/-- Witness for C9: two runs on the same concrete (empty) tables and date. -/
theorem pipeline_deterministic_witness :
    full_pipeline [] [] [] [] 0 = full_pipeline [] [] [] [] 0 :=
  pipeline_deterministic [] [] [] [] [] [] [] [] 0 0 rfl rfl rfl rfl rfl

/-! ### C10: shape and order of the output table -/

/-- C10: every row of `pipelineMain`'s output is the `selectOutput` projection
(exactly the columns customer_id, name, lifetime_value, loss_ratio,
risk_score, segment, total_claims, total_claim_amount, annual_premium_sum,
fraud_claims, policy_tenure_days) of a processed input row, and the rows are
sorted by `lifetime_value` descending. -/
theorem output_shape_sorted (df : List MergedRow) :
    (pipelineMain df).Pairwise (fun a b => b.lifetime_value ≤ a.lifetime_value) ∧
    ∀ o ∈ pipelineMain df, ∃ r ∈ df, o = selectOutput (processRow r) := by
  constructor
  · have htrans : ∀ a b c : OutputRow, ltvDesc a b → ltvDesc b c → ltvDesc a c := by
      intro a b c hab hbc
      simp only [ltvDesc, decide_eq_true_eq] at *
      exact le_trans hbc hab
    have htotal : ∀ a b : OutputRow, ltvDesc a b || ltvDesc b a := by
      intro a b
      simpa only [ltvDesc, Bool.or_eq_true, decide_eq_true_eq] using
        le_total b.lifetime_value a.lifetime_value
    have h := List.sorted_mergeSort htrans htotal ((df.map processRow).map selectOutput)
    exact h.imp (fun hab => by simpa only [ltvDesc, decide_eq_true_eq] using hab)
  · intro o ho
    have : o ∈ (df.map processRow).map selectOutput := List.mem_mergeSort.mp ho
    simp only [List.mem_map] at this
    obtain ⟨s, ⟨r, hr, hs⟩, hos⟩ := this
    exact ⟨r, hr, by rw [← hos, ← hs]⟩

/-! ### C5: left-join completeness and the zero fill -/

/-- A customer with no policy row has no policy aggregate. -/
theorem policy_metrics_eq_none (policies : List Policy) (cid : Nat)
    (h : ∀ p ∈ policies, p.customer_id ≠ cid) : policy_metrics policies cid = none := by
  have hf : policies.filter (fun p => p.customer_id == cid) = [] :=
    List.filter_eq_nil_iff.mpr (fun p hp => by simpa using h p hp)
  simp [policy_metrics, hf]

/-- No pair of the policy-customer map carries a customer id that owns no
policy. -/
theorem policy_customer_map_ne (policies : List Policy) (cid : Nat)
    (h : ∀ p ∈ policies, p.customer_id ≠ cid) :
    ∀ x ∈ policy_customer_map policies, x.2 ≠ cid := by
  intro x hx
  rw [policy_customer_map, List.mem_dedup] at hx
  obtain ⟨p, hp, rfl⟩ := List.mem_map.mp hx
  exact h p hp

/-- A customer with no policy row has no claim aggregate either. -/
theorem customer_claims_eq_none (policies : List Policy) (claims : List ClaimRow)
    (cid : Nat) (h : ∀ p ∈ policies, p.customer_id ≠ cid) :
    customer_claims policies claims cid = none := by
  have hrows : (policy_claims policies claims).filter (fun x => x.1.2 == cid) = [] := by
    apply List.filter_eq_nil_iff.mpr
    intro x hx
    rw [policy_claims] at hx
    obtain ⟨pc, hpc, rfl⟩ := List.mem_map.mp hx
    simpa using policy_customer_map_ne policies cid h pc hpc
  simp [customer_claims, hrows]

/-- A policy id never maps to a customer id that owns no policy. -/
theorem customer_of_policy_ne (policies : List Policy) (pid cid : Nat)
    (h : ∀ p ∈ policies, p.customer_id ≠ cid) :
    customer_of_policy policies pid ≠ some cid := by
  rw [customer_of_policy]
  intro hc
  cases hfind : (policy_customer_map policies).find? (fun pc => pc.1 == pid) with
  | none => rw [hfind] at hc; cases hc
  | some pc =>
    rw [hfind] at hc
    exact policy_customer_map_ne policies cid h pc
      (List.mem_of_find?_eq_some hfind) (by simpa using hc)

/-- A customer with no policy row has no fraud aggregate either. -/
theorem customer_fraud_metrics_eq_none (policies : List Policy) (claims : List ClaimRow)
    (fraud : List FraudRow) (cid : Nat) (h : ∀ p ∈ policies, p.customer_id ≠ cid) :
    customer_fraud_metrics policies claims fraud cid = none := by
  have hrows : (claims_fraud claims fraud).filter
      (fun x => customer_of_policy policies x.2.1 == some cid) = [] := by
    apply List.filter_eq_nil_iff.mpr
    intro x _
    simpa using customer_of_policy_ne policies x.2.1 cid h
  simp [customer_fraud_metrics, hrows]

/-- A customer with no policy row has no first-policy tenure row. -/
theorem first_policy_eq_none (policies : List Policy) (d : Int) (cid : Nat)
    (h : ∀ p ∈ policies, p.customer_id ≠ cid) : first_policy policies d cid = none := by
  have hf : policies.filter (fun p => p.customer_id == cid) = [] :=
    List.filter_eq_nil_iff.mpr (fun p hp => by simpa using h p hp)
  simp [first_policy, hf]

/-- For a customer with no policy (hence no claim and no fraud record of its
own) every aggregate numeric column of the merged output row is zero. -/
theorem analytics_row_zero_filled (policies : List Policy) (claims : List ClaimRow)
    (fraud : List FraudRow) (d : Int) (c : Customer)
    (h : ∀ p ∈ policies, p.customer_id ≠ c.customer_id) :
    (analytics_row policies claims fraud d c).total_policies = 0 ∧
    (analytics_row policies claims fraud d c).active_policies = 0 ∧
    (analytics_row policies claims fraud d c).avg_annual_premium = 0 ∧
    (analytics_row policies claims fraud d c).total_coverage = 0 ∧
    (analytics_row policies claims fraud d c).total_claims = 0 ∧
    (analytics_row policies claims fraud d c).total_claimed_amount = 0 ∧
    (analytics_row policies claims fraud d c).avg_claim_amount = 0 ∧
    (analytics_row policies claims fraud d c).detection_count = 0 ∧
    (analytics_row policies claims fraud d c).avg_confidence = 0 ∧
    (analytics_row policies claims fraud d c).policy_tenure_days = 0 := by
  have h1 := policy_metrics_eq_none policies c.customer_id h
  have h2 := customer_claims_eq_none policies claims c.customer_id h
  have h3 := customer_fraud_metrics_eq_none policies claims fraud c.customer_id h
  have h4 := first_policy_eq_none policies d c.customer_id h
  refine ⟨?_, ?_, ?_, ?_, ?_, ?_, ?_, ?_, ?_, ?_⟩ <;>
    simp [analytics_row, h1, h2, h3, h4]

/-- C5: every customer id of the input appears exactly once in
`create_customer_analytics`'s output (the whole join chain is left joins on
unique keys), and a customer with no policies — hence no claims and no fraud
detections of its own — still gets a row, its aggregate numeric columns
zero-filled. -/
theorem left_join_completeness (customers : List Customer) (policies : List Policy)
    (claims : List ClaimRow) (fraud : List FraudRow) (current_date : Int) :
    ((customers.map (fun c => c.customer_id)).Nodup →
      ∀ cid ∈ customers.map (fun c => c.customer_id),
        ((create_customer_analytics customers policies claims fraud current_date).filter
          (fun r => r.customer_id == cid)).length = 1) ∧
    (∀ c ∈ customers, (∀ p ∈ policies, p.customer_id ≠ c.customer_id) →
      ∃ r ∈ create_customer_analytics customers policies claims fraud current_date,
        r.customer_id = c.customer_id ∧ r.total_policies = 0 ∧ r.active_policies = 0 ∧
        r.avg_annual_premium = 0 ∧ r.total_coverage = 0 ∧ r.total_claims = 0 ∧
        r.total_claimed_amount = 0 ∧ r.avg_claim_amount = 0 ∧ r.detection_count = 0 ∧
        r.avg_confidence = 0 ∧ r.policy_tenure_days = 0) := by
  constructor
  · intro hnd cid hcid
    rw [create_customer_analytics, List.filter_map, List.length_map,
      ← List.countP_eq_length_filter]
    have hcount : List.countP
        ((fun r => r.customer_id == cid) ∘ analytics_row policies claims fraud current_date)
        customers = List.count cid (customers.map (fun c => c.customer_id)) := by
      rw [List.count_eq_countP, List.countP_map]
      rfl
    rw [hcount]
    exact List.count_eq_one_of_mem hnd hcid
  · intro c hc h
    refine ⟨analytics_row policies claims fraud current_date c,
      List.mem_map.mpr ⟨c, hc, rfl⟩, rfl, ?_⟩
    exact analytics_row_zero_filled policies claims fraud current_date c h

end LTV
